import Mathlib

/-!
Shallow embedding of the caching subsystem of the tavily-llm-agent
repository (src/tools/cache.py, src/workflows/cached_newsletter.py,
src/interactive_agent.py) and proofs about the spec's claims.

Python strings are modelled as `List Char`; the Redis store as a list of
entries (key, value, absolute expiry time) with integer time; exceptions
raised by the Redis client, and the client being `None`, are modelled by
boolean flags in a `RedisEnv` record (the Python code catches every such
exception inside the cache layer, so the embedded functions are total);
the LangGraph generator (`build_graph().invoke(...)`) is an external
collaborator, modelled as a parameter of type `GenOutcome`.
-/

namespace TavilyCache

/-- A Python string, as its list of characters. -/
abbrev Str := List Char

/-- Python `str.lower()`, per-character (ASCII case mapping). -/
def lowerStr (s : Str) : Str := s.map Char.toLower

/- String constants used throughout the code. -/

def sDay : Str := "day".data
def sWeek : Str := "week".data
def sMonth : Str := "month".data
def sCache : Str := "cache".data
def sFresh : Str := "fresh".data
def sError : Str := "error".data
def nsPre : Str := "newsletter_".data
def sepU : Str := "_".data

/-- The valid time periods (`day`, `week`, `month`). -/
def validPeriods : List Str := [sDay, sWeek, sMonth]

/-- `TTL_MAP` from src/tools/cache.py: `{"day": 8*3600, "week": 48*3600,
"month": 168*3600}`, as a lookup function (`none` = key absent). -/
def TTL_MAP (t : Str) : Option Nat :=
  if t = sDay then some (8 * 3600)
  else if t = sWeek then some (48 * 3600)
  else if t = sMonth then some (168 * 3600)
  else none

/-- `TTL_MAP.get(time_period, TTL_MAP["day"])` from `cache_newsletter`:
the TTL chosen for a write, defaulting to the `day` TTL. -/
def ttlFor (t : Str) : Nat := (TTL_MAP t).getD (8 * 3600)

/-- `get_cache_key` from src/tools/cache.py: the f-string
interpolating the lowercased profession and the time period after the
fixed namespace, i.e. namespace ++ lower(profession) ++ sep ++ period. -/
def get_cache_key (profession time_period : Str) : Str :=
  nsPre ++ lowerStr profession ++ sepU ++ time_period

/-- One stored Redis entry: key, value, absolute expiry instant.
The entry is live at time `now` iff `now < expiry`. -/
structure Entry where
  key : Str
  value : Str
  expiry : Nat
deriving DecidableEq

/-- The Redis store contents. -/
abbrev Store := List Entry

/-- Redis `GET`: the value of a live entry with this key, if any. -/
def redisGet (s : Store) (now : Nat) (k : Str) : Option Str :=
  (s.find? (fun e => decide (e.key = k) && decide (now < e.expiry))).map Entry.value

/-- Redis `SETEX`: store `v` under `k` with expiry `now + ttl`,
replacing any previous entry for `k`. -/
def redisSetex (s : Store) (now : Nat) (k : Str) (ttl : Nat) (v : Str) : Store :=
  { key := k, value := v, expiry := now + ttl } :: s.filter (fun e => decide (e.key ≠ k))

/-- Scan the body of a Redis glob character class (what follows `[` and
the optional `^`) against the character c: returns whether any class
item matches c, and the pattern remaining after the closing `]`.
A backslash escapes the next item, `a-b` is a range (bounds swapped when
reversed, compared by code point), and a class left open runs to the end
of the pattern. -/
def globClassScan (c : Char) : Str → Bool × Str
  | [] => (false, [])
  | '\\' :: x :: ps =>
      match globClassScan c ps with
      | (m, rest) => (m || decide (x = c), rest)
  | ']' :: ps => (false, ps)
  | a :: '-' :: b :: ps =>
      match globClassScan c ps with
      | (m, rest) =>
          (m || decide (min a.val b.val ≤ c.val ∧ c.val ≤ max a.val b.val),
           rest)
  | a :: ps =>
      match globClassScan c ps with
      | (m, rest) => (m || decide (a = c), rest)

/-- Recursion core of Redis glob matching, with explicit fuel so that it
is structurally recursive and computes by kernel reduction. Every step
consumes at least one character of the pattern or of the string, so a
fuel of pattern length + string length + 1 always suffices and the
fuel-exhausted case is unreachable from `globMatch`. Cases, following
`stringmatchlen` in the server's util.c (case-sensitive): consecutive
`*` collapse; a trailing `*` matches everything; `*` otherwise tries the
rest of the pattern against every non-empty suffix; `?` consumes exactly
one character; `[...]` matches one character against a class (leading
`^` negates it); a backslash escapes the next pattern character (a lone
trailing backslash stands for itself); any other character matches
itself. -/
def globMatchAux : Nat → Str → Str → Bool
  | 0, _, _ => false
  | _ + 1, [], [] => true
  | _ + 1, [], _ :: _ => false
  | n + 1, '*' :: '*' :: ps, s => globMatchAux n ('*' :: ps) s
  | _ + 1, ['*'], _ => true
  | _ + 1, '*' :: _ :: _, [] => false
  | n + 1, '*' :: p :: ps, c :: s =>
      globMatchAux n (p :: ps) (c :: s) || globMatchAux n ('*' :: p :: ps) s
  | n + 1, '?' :: ps, _ :: s => globMatchAux n ps s
  | _ + 1, '?' :: _, [] => false
  | n + 1, '[' :: '^' :: ps, c :: s =>
      match globClassScan c ps with
      | (m, rest) => if m then false else globMatchAux n rest s
  | n + 1, '[' :: ps, c :: s =>
      match globClassScan c ps with
      | (m, rest) => if m then globMatchAux n rest s else false
  | _ + 1, '[' :: _, [] => false
  | n + 1, '\\' :: p :: ps, c :: s =>
      if p = c then globMatchAux n ps s else false
  | _ + 1, '\\' :: _ :: _, [] => false
  | n + 1, p :: ps, c :: s => if p = c then globMatchAux n ps s else false
  | _ + 1, _ :: _, [] => false

/-- Redis glob matching (`stringmatchlen`), which answers
`KEYS pattern`: see `globMatchAux` for the case semantics. -/
def globMatch (pat s : Str) : Bool :=
  globMatchAux (pat.length + s.length + 1) pat s

/-- Redis `KEYS pattern`: the keys of live entries whose key matches the
glob pattern. -/
def redisKeys (s : Store) (now : Nat) (pat : Str) : List Str :=
  (s.filter (fun e => globMatch pat e.key && decide (now < e.expiry))).map Entry.key

/-- Redis `DEL k1 ... kn`: remove all entries with a key in `ks`; the
returned count is the number of live entries removed. -/
def redisDelete (s : Store) (now : Nat) (ks : List Str) : Store × Nat :=
  (s.filter (fun e => decide (e.key ∉ ks)),
   (s.filter (fun e => decide (e.key ∈ ks) && decide (now < e.expiry))).length)

/-- Failure environment of the Redis client: `available` is whether
`redis_client` is non-`None`; each `fail*` flag makes the corresponding
client call raise (the exception is caught inside the cache layer). -/
structure RedisEnv where
  available : Bool
  failGet : Bool
  failSet : Bool
  failKeys : Bool
  failDel : Bool
deriving DecidableEq

/-- A fully working Redis environment. -/
def envOk : RedisEnv := ⟨true, false, false, false, false⟩

/-- The environment with `redis_client = None` (store unavailable). -/
def envDown : RedisEnv := ⟨false, false, false, false, false⟩

/-- `get_cached_newsletter` from src/tools/cache.py: `None` without a
client; `None` when the client raises (caught); otherwise `GET` the key
and return the value only if it is truthy (non-empty), else `None`. -/
def get_cached_newsletter (env : RedisEnv) (s : Store) (now : Nat)
    (profession time_period : Str) : Option Str :=
  if !env.available then none
  else if env.failGet then none
  else
    match redisGet s now (get_cache_key profession time_period) with
    | some v => if v = [] then none else some v
    | none => none

/-- `cache_newsletter` from src/tools/cache.py: `False` without a client
or on a caught exception; otherwise `SETEX` with
`TTL_MAP.get(time_period, TTL_MAP["day"])` and return `True`.
Returns the updated store and the boolean result. -/
def cache_newsletter (env : RedisEnv) (s : Store) (now : Nat)
    (profession time_period newsletter : Str) : Store × Bool :=
  if !env.available then (s, false)
  else if env.failSet then (s, false)
  else
    (redisSetex s now (get_cache_key profession time_period)
      (ttlFor time_period) newsletter, true)

/-- `clear_cache_for_profession` from src/tools/cache.py: `0` without a
client or on a caught exception; otherwise `KEYS` with the f-string
pattern of namespace, lowercased profession, separator and a final `*`,
and if any key matched, `DEL` them all, returning the deleted count. -/
def clear_cache_for_profession (env : RedisEnv) (s : Store) (now : Nat)
    (profession : Str) : Store × Nat :=
  if !env.available then (s, 0)
  else if env.failKeys then (s, 0)
  else
    match redisKeys s now (nsPre ++ lowerStr profession ++ sepU ++ ("*").data) with
    | [] => (s, 0)
    | k :: ks => redisDelete s now (k :: ks)

/-- `clear_cache_for_user` from src/interactive_agent.py: with a client,
`DEL` the single cache key and return whether `deleted > 0`; `False`
without a client or on a caught exception. -/
def clear_cache_for_user (env : RedisEnv) (s : Store) (now : Nat)
    (profession time_period : Str) : Store × Bool :=
  if env.available then
    if env.failDel then (s, false)
    else
      let r := redisDelete s now [get_cache_key profession time_period]
      (r.1, decide (0 < r.2))
  else (s, false)

/-- Outcome of `build_graph().invoke({...})` in
src/workflows/cached_newsletter.py: either the call raises with a
message, or it returns a result dict whose `result.get("newsletter", "")`
is the given string. -/
inductive GenOutcome where
  | raises (msg : Str)
  | returns (newsletter : Str)
deriving DecidableEq

/-- The dict returned by `generate_newsletter_with_cache` (the fields the
spec's claims are about; `final_summary`/`summaries` glue is omitted). -/
structure NewsletterResult where
  newsletter : Str
  source : Str
  profession : Str
  time_period : Str
deriving DecidableEq

/-- `generate_newsletter_with_cache` from
src/workflows/cached_newsletter.py. Check the cache first; on a hit
return the cached text with `source="cache"`. On a miss run the graph
(the `GenOutcome` parameter): a raised exception yields
`"Error generating newsletter: {e}"` with `source="error"`; a truthy
(non-empty) newsletter is cached and returned with `source="fresh"`;
an empty newsletter yields `"Error generating newsletter"` with
`source="error"`. The result triple is (returned dict, store after the
call, number of generator invocations). -/
def generate_newsletter_with_cache (env : RedisEnv) (gen : GenOutcome)
    (s : Store) (now : Nat) (profession : Str) (time_period : Str) :
    NewsletterResult × Store × Nat :=
  match get_cached_newsletter env s now profession time_period with
  | some cached =>
      ({ newsletter := cached, source := sCache,
         profession := profession, time_period := time_period }, s, 0)
  | none =>
      match gen with
      | .raises msg =>
          ({ newsletter := "Error generating newsletter: ".data ++ msg,
             source := sError,
             profession := profession, time_period := time_period }, s, 1)
      | .returns newsletter =>
          if newsletter ≠ [] then
            ({ newsletter := newsletter, source := sFresh,
               profession := profession, time_period := time_period },
             (cache_newsletter env s now profession time_period newsletter).1, 1)
          else
            ({ newsletter := "Error generating newsletter".data,
               source := sError,
               profession := profession, time_period := time_period }, s, 1)

/-- The environment where the client is connected but `SETEX` raises
(write failure), the exception being caught in `cache_newsletter`. -/
def envWriteFail : RedisEnv := ⟨true, false, true, false, false⟩

/-- A sequence of fetch-or-generate calls at the given instants,
threading the store through; models repeated reads of the same
(profession, time_period) between a write and its expiry. -/
def repeatedFetch (env : RedisEnv) (gen : GenOutcome) (p t : Str) :
    List Nat → Store → Store
  | [], s => s
  | n :: rest, s =>
      repeatedFetch env gen p t rest
        (generate_newsletter_with_cache env gen s n p t).2.1

/-! ### Helper lemmas -/

theorem get_cache_key_eq_grouped (p t : Str) :
    get_cache_key p t = (nsPre ++ lowerStr p ++ sepU) ++ t := by
  simp [get_cache_key, List.append_assoc]

theorem get_cache_key_getLast (p t : Str) (ht : t ≠ []) :
    (get_cache_key p t).getLast? = t.getLast? := by
  rw [get_cache_key_eq_grouped, List.getLast?_append_of_ne_nil _ ht]

theorem get_cache_key_inj_period (p q t : Str)
    (h : get_cache_key p t = get_cache_key q t) : lowerStr p = lowerStr q := by
  rw [get_cache_key_eq_grouped, get_cache_key_eq_grouped] at h
  have h2 := List.append_cancel_right h
  have h3 := List.append_cancel_left (List.append_cancel_right h2)
  exact h3

theorem get_cache_key_inj_profession (p q t u : Str)
    (h : get_cache_key p t = get_cache_key q u) (hpq : lowerStr p = lowerStr q) :
    t = u := by
  unfold get_cache_key at h
  rw [hpq] at h
  exact List.append_cancel_left h

theorem redisGet_setex_expired (s : Store) (now now' : Nat) (k : Str)
    (ttl : Nat) (v : Str) (hexp : now + ttl ≤ now') :
    redisGet (redisSetex s now k ttl v) now' k = none := by
  unfold redisGet redisSetex
  rw [List.find?_cons_of_neg, List.find?_eq_none.mpr]
  · rfl
  · intro e he
    simp only [List.mem_filter, decide_eq_true_eq] at he
    simp [he.2]
  · simp [Nat.not_lt.mpr hexp]

theorem get_after_expiry (env : RedisEnv) (s : Store) (now now' : Nat)
    (p t v : Str) (hexp : now + ttlFor t ≤ now') :
    get_cached_newsletter env
      (redisSetex s now (get_cache_key p t) (ttlFor t) v) now' p t = none := by
  unfold get_cached_newsletter
  rw [redisGet_setex_expired s now now' _ _ v hexp]
  simp

theorem get_cached_ne_nil (env : RedisEnv) (s : Store) (now : Nat)
    (p t v : Str) (h : get_cached_newsletter env s now p t = some v) :
    v ≠ [] := by
  unfold get_cached_newsletter at h
  split at h
  · exact absurd h (by simp)
  · split at h
    · exact absurd h (by simp)
    · split at h
      · split at h
        · exact absurd h (by simp)
        · next hne => cases Option.some_inj.mp h; exact hne
      · exact absurd h (by simp)

theorem get_after_setex (env : RedisEnv) (s : Store) (now now' : Nat) (p t v : Str)
    (hav : env.available = true) (hfg : env.failGet = false) (hv : v ≠ [])
    (hlt : now' < now + ttlFor t) :
    get_cached_newsletter env
      (redisSetex s now (get_cache_key p t) (ttlFor t) v) now' p t = some v := by
  simp [get_cached_newsletter, hav, hfg, redisGet, redisSetex, List.find?, hlt, hv]

/-! ### Claims -/

/-- C3: `cache_newsletter` assigns exactly 28800 s of TTL for `day`,
172800 s for `week`, 604800 s for `month`, and for any other period the
`day` default of 28800 s; in all cases (unknown period included) the
write goes through (`SETEX` with that TTL, returning `True`). -/
theorem C3_ttl_correctness (env : RedisEnv) (s : Store) (now : Nat) (p t v : Str)
    (hav : env.available = true) (hfs : env.failSet = false)
    (hunk : t ∉ validPeriods) :
    ttlFor sDay = 28800 ∧ ttlFor sWeek = 172800 ∧ ttlFor sMonth = 604800 ∧
    ttlFor t = 28800 ∧
    cache_newsletter env s now p t v =
      (redisSetex s now (get_cache_key p t) (ttlFor t) v, true) ∧
    cache_newsletter env s now p sDay v =
      (redisSetex s now (get_cache_key p sDay) (ttlFor sDay) v, true) := by
  simp only [validPeriods, List.mem_cons, List.not_mem_nil, or_false, not_or] at hunk
  obtain ⟨h1, h2, h3⟩ := hunk
  refine ⟨rfl, rfl, rfl, ?_, ?_, ?_⟩
  · simp [ttlFor, TTL_MAP, h1, h2, h3]
  · simp [cache_newsletter, hav, hfs]
  · simp [cache_newsletter, hav, hfs]

/-- Witness for C3 at time period "year" (unknown). -/
theorem C3_ttl_correctness_witness :
    ttlFor sDay = 28800 ∧ ttlFor sWeek = 172800 ∧ ttlFor sMonth = 604800 ∧
    ttlFor (("year").data) = 28800 ∧
    cache_newsletter envOk [] 0 (("nurse").data) (("year").data) (("x").data) =
      (redisSetex [] 0 (get_cache_key (("nurse").data) (("year").data))
        (ttlFor (("year").data)) (("x").data), true) ∧
    cache_newsletter envOk [] 0 (("nurse").data) sDay (("x").data) =
      (redisSetex [] 0 (get_cache_key (("nurse").data) sDay)
        (ttlFor sDay) (("x").data), true) :=
  C3_ttl_correctness envOk [] 0 (("nurse").data) (("year").data) (("x").data)
    rfl rfl (by decide)

/-- C1 (amended): round trip for a non-empty value V. After
`cache_newsletter P T V` succeeds, any later fetch at a time before the
TTL has expired returns V with `source="cache"`, leaves the store
unchanged, and does not invoke the generator (invocation count 0),
whatever the generator would have produced. -/
theorem C1_round_trip (env : RedisEnv) (gen : GenOutcome) (s : Store)
    (now now' : Nat) (p t V : Str)
    (hav : env.available = true) (hfg : env.failGet = false)
    (hfs : env.failSet = false) (hV : V ≠ [])
    (hlt : now' < now + ttlFor t) :
    (cache_newsletter env s now p t V).2 = true ∧
    generate_newsletter_with_cache env gen
        (cache_newsletter env s now p t V).1 now' p t =
      ({ newsletter := V, source := sCache, profession := p, time_period := t },
       (cache_newsletter env s now p t V).1, 0) := by
  have hw : cache_newsletter env s now p t V =
      (redisSetex s now (get_cache_key p t) (ttlFor t) V, true) := by
    simp [cache_newsletter, hav, hfs]
  refine ⟨by rw [hw], ?_⟩
  rw [hw]
  simp [generate_newsletter_with_cache,
    get_after_setex env s now now' p t V hav hfg hV hlt]

/-- Witness for C1 at profession "doctor", period "day", value "x". -/
theorem C1_round_trip_witness :
    (cache_newsletter envOk [] 0 (("doctor").data) sDay (("x").data)).2 = true ∧
    generate_newsletter_with_cache envOk (GenOutcome.returns (("y").data))
        (cache_newsletter envOk [] 0 (("doctor").data) sDay (("x").data)).1
        7 (("doctor").data) sDay =
      ({ newsletter := ("x").data, source := sCache,
         profession := ("doctor").data, time_period := sDay },
       (cache_newsletter envOk [] 0 (("doctor").data) sDay (("x").data)).1, 0) :=
  C1_round_trip envOk (GenOutcome.returns (("y").data)) [] 0 7
    (("doctor").data) sDay (("x").data) rfl rfl rfl (by decide) (by decide)

/-- C1 as stated is false for the value V = "": the write succeeds, the
TTL has not expired at the next fetch, yet the fetch is a miss (empty
strings are falsy in `get_cached_newsletter`), so the generator runs and
the result has `source="fresh"`, not `"cache"`. -/
theorem C1_counterexample :
    (cache_newsletter envOk [] 0 (("doctor").data) sDay []).2 = true ∧
    (1 : Nat) < 0 + ttlFor sDay ∧
    (generate_newsletter_with_cache envOk (GenOutcome.returns (("x").data))
        (cache_newsletter envOk [] 0 (("doctor").data) sDay []).1
        1 (("doctor").data) sDay).1.source ≠ sCache ∧
    (generate_newsletter_with_cache envOk (GenOutcome.returns (("x").data))
        (cache_newsletter envOk [] 0 (("doctor").data) sDay []).1
        1 (("doctor").data) sDay).2.2 = 1 := by
  decide

/-- C2 (amended): a miss triggers generation — provided the store is
available, the write does not fail, and the generator returns a
non-empty newsletter, the fetch invokes the generator exactly once,
caches its output under the key for (P, T) via `SETEX`, and returns that
output with `source="fresh"`. -/
theorem C2_miss_generates (env : RedisEnv) (s : Store) (now : Nat) (p t v : Str)
    (hav : env.available = true) (hfs : env.failSet = false)
    (hmiss : get_cached_newsletter env s now p t = none) (hv : v ≠ []) :
    generate_newsletter_with_cache env (GenOutcome.returns v) s now p t =
      ({ newsletter := v, source := sFresh, profession := p, time_period := t },
       redisSetex s now (get_cache_key p t) (ttlFor t) v, 1) := by
  simp [generate_newsletter_with_cache, hmiss, hv, cache_newsletter, hav, hfs]

/-- Witness for C2 on the empty store. -/
theorem C2_miss_generates_witness :
    generate_newsletter_with_cache envOk (GenOutcome.returns (("n").data))
        [] 0 (("doctor").data) sDay =
      ({ newsletter := ("n").data, source := sFresh,
         profession := ("doctor").data, time_period := sDay },
       redisSetex [] 0 (get_cache_key (("doctor").data) sDay)
         (ttlFor sDay) (("n").data), 1) :=
  C2_miss_generates envOk [] 0 (("doctor").data) sDay (("n").data)
    rfl rfl (by decide) (by decide)

/-- C2 as stated is false when the generator returns the empty string:
on an empty store the generator runs, but nothing is cached (the store
stays empty) and the result has `source="error"`, not `"fresh"`. -/
theorem C2_counterexample :
    get_cached_newsletter envOk [] 0 (("doctor").data) sDay = none ∧
    (generate_newsletter_with_cache envOk (GenOutcome.returns [])
        [] 0 (("doctor").data) sDay).1.source = sError ∧
    (generate_newsletter_with_cache envOk (GenOutcome.returns [])
        [] 0 (("doctor").data) sDay).1.source ≠ sFresh ∧
    (generate_newsletter_with_cache envOk (GenOutcome.returns [])
        [] 0 (("doctor").data) sDay).2.1 = [] := by
  decide

/-- C4 (amended): empty generator output is treated as an error, not a
success — on a miss with an empty generator result, nothing is written
to the cache (the store is unchanged), and the call returns the text
"Error generating newsletter" with `source="error"`. -/
theorem C4_empty_output (env : RedisEnv) (s : Store) (now : Nat) (p t : Str)
    (hmiss : get_cached_newsletter env s now p t = none) :
    generate_newsletter_with_cache env (GenOutcome.returns []) s now p t =
      ({ newsletter := ("Error generating newsletter").data, source := sError,
         profession := p, time_period := t }, s, 1) := by
  simp [generate_newsletter_with_cache, hmiss]

/-- Witness for C4 on the empty store. -/
theorem C4_empty_output_witness :
    generate_newsletter_with_cache envOk (GenOutcome.returns [])
        [] 5 (("musician").data) sWeek =
      ({ newsletter := ("Error generating newsletter").data, source := sError,
         profession := ("musician").data, time_period := sWeek }, [], 1) :=
  C4_empty_output envOk [] 5 (("musician").data) sWeek (by decide)

/-- C4 as stated is false: with an empty generator output the call does
not return `source="fresh"` and does not cache the empty string — the
store is left empty and the source is `"error"`. -/
theorem C4_counterexample :
    (generate_newsletter_with_cache envOk (GenOutcome.returns [])
        [] 5 (("musician").data) sWeek).1.source ≠ sFresh ∧
    (generate_newsletter_with_cache envOk (GenOutcome.returns [])
        [] 5 (("musician").data) sWeek).1.source = sError ∧
    (generate_newsletter_with_cache envOk (GenOutcome.returns [])
        [] 5 (("musician").data) sWeek).2.1 = [] := by
  decide

theorem key_ne_of_period_ne (p : Str) {t u : Str} (h : t ≠ u) :
    get_cache_key p t ≠ get_cache_key p u :=
  fun hk => h (get_cache_key_inj_profession p p t u hk rfl)

/-- C6 (amended): scoped invalidation, for professions P and Q such that
the Redis glob pattern built for P (namespace, lower(P), separator, `*`)
matches P's own two keys and does not match Q's (Q, day) key — as is the
case whenever P contains no glob metacharacters and lower(P) followed by
the separator is not a prefix of Q's key suffix. Then, after caching
(P, day), (P, week), (Q, day), `clear_cache_for_profession P` removes
exactly the two P entries (returning 2) and leaves the (Q, day) entry;
on the original store, `clear_cache_for_user P day` removes only the
(P, day) key, leaving (P, week) and (Q, day). -/
theorem C6_scoped_invalidation (P Q va vb vc : Str)
    (h1 : globMatch (nsPre ++ lowerStr P ++ sepU ++ ("*").data)
      (get_cache_key P sDay) = true)
    (h2 : globMatch (nsPre ++ lowerStr P ++ sepU ++ ("*").data)
      (get_cache_key P sWeek) = true)
    (h3 : globMatch (nsPre ++ lowerStr P ++ sepU ++ ("*").data)
      (get_cache_key Q sDay) = false) :
    (cache_newsletter envOk
      ((cache_newsletter envOk
        ((cache_newsletter envOk [] 0 P sDay va).1) 0 P sWeek vb).1)
      0 Q sDay vc).1 =
      [⟨get_cache_key Q sDay, vc, 28800⟩,
       ⟨get_cache_key P sWeek, vb, 172800⟩,
       ⟨get_cache_key P sDay, va, 28800⟩] ∧
    clear_cache_for_profession envOk
      [⟨get_cache_key Q sDay, vc, 28800⟩,
       ⟨get_cache_key P sWeek, vb, 172800⟩,
       ⟨get_cache_key P sDay, va, 28800⟩] 0 P =
      ([⟨get_cache_key Q sDay, vc, 28800⟩], 2) ∧
    clear_cache_for_user envOk
      [⟨get_cache_key Q sDay, vc, 28800⟩,
       ⟨get_cache_key P sWeek, vb, 172800⟩,
       ⟨get_cache_key P sDay, va, 28800⟩] 0 P sDay =
      ([⟨get_cache_key Q sDay, vc, 28800⟩,
        ⟨get_cache_key P sWeek, vb, 172800⟩], true) := by
  have e1 : get_cache_key P sDay ≠ get_cache_key P sWeek :=
    key_ne_of_period_ne P (by decide)
  have e2 : get_cache_key Q sDay ≠ get_cache_key P sDay := by
    intro hk
    rw [hk, h1] at h3
    exact absurd h3 (by simp)
  have e3 : get_cache_key Q sDay ≠ get_cache_key P sWeek := by
    intro hk
    rw [hk, h2] at h3
    exact absurd h3 (by simp)
  have e1s := Ne.symm e1
  have e2s := Ne.symm e2
  have e3s := Ne.symm e3
  have b1 : decide (get_cache_key P sDay = get_cache_key P sWeek) = false :=
    decide_eq_false e1
  have b1s : decide (get_cache_key P sWeek = get_cache_key P sDay) = false :=
    decide_eq_false e1s
  have b2 : decide (get_cache_key P sDay = get_cache_key Q sDay) = false :=
    decide_eq_false e2s
  have b3 : decide (get_cache_key P sWeek = get_cache_key Q sDay) = false :=
    decide_eq_false e3s
  have b4 : decide (get_cache_key Q sDay = get_cache_key P sDay) = false :=
    decide_eq_false e2
  have b5 : decide (get_cache_key Q sDay = get_cache_key P sWeek) = false :=
    decide_eq_false e3
  have t1 : ttlFor sDay = 28800 := by decide
  have t2 : ttlFor sWeek = 172800 := by decide
  simp only [List.append_assoc] at h1 h2 h3
  refine ⟨?_, ?_, ?_⟩
  · simp [cache_newsletter, envOk, redisSetex, t1, t2, b1, b2, b3]
  · simp [clear_cache_for_profession, envOk, redisKeys, redisDelete,
      h1, h2, h3, b1, b1s, b2, b3, b4, b5]
  · simp [clear_cache_for_user, envOk, redisDelete, b1s, b4]

/-- Witness for C6 at P = "doctor", Q = "nurse". -/
theorem C6_scoped_invalidation_witness :
    (cache_newsletter envOk
      ((cache_newsletter envOk
        ((cache_newsletter envOk [] 0 (("doctor").data) sDay (("A").data)).1)
        0 (("doctor").data) sWeek (("B").data)).1)
      0 (("nurse").data) sDay (("C").data)).1 =
      [⟨get_cache_key (("nurse").data) sDay, ("C").data, 28800⟩,
       ⟨get_cache_key (("doctor").data) sWeek, ("B").data, 172800⟩,
       ⟨get_cache_key (("doctor").data) sDay, ("A").data, 28800⟩] ∧
    clear_cache_for_profession envOk
      [⟨get_cache_key (("nurse").data) sDay, ("C").data, 28800⟩,
       ⟨get_cache_key (("doctor").data) sWeek, ("B").data, 172800⟩,
       ⟨get_cache_key (("doctor").data) sDay, ("A").data, 28800⟩]
      0 (("doctor").data) =
      ([⟨get_cache_key (("nurse").data) sDay, ("C").data, 28800⟩], 2) ∧
    clear_cache_for_user envOk
      [⟨get_cache_key (("nurse").data) sDay, ("C").data, 28800⟩,
       ⟨get_cache_key (("doctor").data) sWeek, ("B").data, 172800⟩,
       ⟨get_cache_key (("doctor").data) sDay, ("A").data, 28800⟩]
      0 (("doctor").data) sDay =
      ([⟨get_cache_key (("nurse").data) sDay, ("C").data, 28800⟩,
        ⟨get_cache_key (("doctor").data) sWeek, ("B").data, 172800⟩], true) :=
  C6_scoped_invalidation (("doctor").data) (("nurse").data)
    (("A").data) (("B").data) (("C").data) (by decide) (by decide) (by decide)

/-- C6 as stated is false for all distinct professions: with P = "doc"
and Q = "doc_x" (distinct), the glob pattern `newsletter_doc_*` also
captures Q's key, so `clear_cache_for_profession P` deletes all three
entries (returning 3, not 2) and removes the (Q, day) entry as well. -/
theorem C6_counterexample :
    (clear_cache_for_profession envOk
      ((cache_newsletter envOk
        ((cache_newsletter envOk
          ((cache_newsletter envOk [] 0 (("doc").data) sDay (("A").data)).1)
          0 (("doc").data) sWeek (("B").data)).1)
        0 (("doc_x").data) sDay (("C").data)).1)
      0 (("doc").data)).2 = 3 ∧
    get_cached_newsletter envOk
      ((clear_cache_for_profession envOk
        ((cache_newsletter envOk
          ((cache_newsletter envOk
            ((cache_newsletter envOk [] 0 (("doc").data) sDay (("A").data)).1)
            0 (("doc").data) sWeek (("B").data)).1)
          0 (("doc_x").data) sDay (("C").data)).1)
        0 (("doc").data)).1)
      0 (("doc_x").data) sDay = none := by
  decide

/-- C7: the key builder is pure and deterministic (repeated calls with
the same arguments agree, and it depends on the profession only through
its lowercasing, so "Doctor" and "doctor" give the same key), and over
time periods restricted to day/week/month it is collision-free: equal
keys force equal lowercased professions and equal periods. -/
theorem C7_key_builder :
    (∀ p t, get_cache_key p t = get_cache_key p t) ∧
    (∀ p q t, lowerStr p = lowerStr q → get_cache_key p t = get_cache_key q t) ∧
    get_cache_key (("Doctor").data) sDay = get_cache_key (("doctor").data) sDay ∧
    (∀ p q t u, t ∈ validPeriods → u ∈ validPeriods →
      get_cache_key p t = get_cache_key q u → lowerStr p = lowerStr q ∧ t = u) := by
  refine ⟨fun p t => rfl, ?_, ?_, ?_⟩
  · intro p q t h
    simp [get_cache_key, h]
  · simp [get_cache_key]
    decide
  · intro p q t u ht hu hk
    simp only [validPeriods, List.mem_cons, List.not_mem_nil, or_false] at ht hu
    have hlast : ∀ a b : Str, a ≠ [] → b ≠ [] →
        get_cache_key p a = get_cache_key q b → a.getLast? = b.getLast? := by
      intro a b ha hb h
      rw [← get_cache_key_getLast p a ha, ← get_cache_key_getLast q b hb, h]
    rcases ht with rfl | rfl | rfl <;> rcases hu with rfl | rfl | rfl
    · exact ⟨get_cache_key_inj_period p q sDay hk, rfl⟩
    · exact absurd (hlast _ _ (by decide) (by decide) hk) (by decide)
    · exact absurd (hlast _ _ (by decide) (by decide) hk) (by decide)
    · exact absurd (hlast _ _ (by decide) (by decide) hk) (by decide)
    · exact ⟨get_cache_key_inj_period p q sWeek hk, rfl⟩
    · exact absurd (hlast _ _ (by decide) (by decide) hk) (by decide)
    · exact absurd (hlast _ _ (by decide) (by decide) hk) (by decide)
    · exact absurd (hlast _ _ (by decide) (by decide) hk) (by decide)
    · exact ⟨get_cache_key_inj_period p q sMonth hk, rfl⟩

/-- Witness for C7: case-insensitivity at "Doctor"/"doctor", and
collision-freedom applied at a concrete equal-key instance. -/
theorem C7_key_builder_witness :
    get_cache_key (("Doctor").data) sWeek = get_cache_key (("doctor").data) sWeek ∧
    (lowerStr (("Nurse").data) = lowerStr (("nurse").data) ∧ sDay = sDay) :=
  ⟨C7_key_builder.2.1 (("Doctor").data) (("doctor").data) sWeek (by decide),
   C7_key_builder.2.2.2 (("Nurse").data) (("nurse").data) sDay sDay
     (by decide) (by decide) (by decide)⟩

/-- C5: store failures never fail the call. When the write raises after
a successful (non-empty) generation, `cache_newsletter` reports `False`,
the store is unchanged, yet the fetch still returns the fresh content
with `source="fresh"`. When the store is unavailable, the fetch returns
`source="fresh"` for a successful generation, `source="error"` when the
generator raises or returns empty (in general the source is always
fresh-or-error), and both invalidation operations return 0 resp. `False`
with the store unchanged. All embedded functions are total: no exception
crosses the boundary. -/
theorem C5_store_failures (env envD : RedisEnv) (gen : GenOutcome)
    (s : Store) (now : Nat) (p t v m : Str)
    (hav : env.available = true) (hfs : env.failSet = true)
    (hmiss : get_cached_newsletter env s now p t = none) (hv : v ≠ [])
    (hdown : envD.available = false) :
    cache_newsletter env s now p t v = (s, false) ∧
    generate_newsletter_with_cache env (GenOutcome.returns v) s now p t =
      ({ newsletter := v, source := sFresh, profession := p, time_period := t },
       s, 1) ∧
    generate_newsletter_with_cache envD (GenOutcome.returns v) s now p t =
      ({ newsletter := v, source := sFresh, profession := p, time_period := t },
       s, 1) ∧
    (generate_newsletter_with_cache envD (GenOutcome.raises m) s now p t).1.source
      = sError ∧
    ((generate_newsletter_with_cache envD gen s now p t).1.source = sFresh ∨
     (generate_newsletter_with_cache envD gen s now p t).1.source = sError) ∧
    clear_cache_for_profession envD s now p = (s, 0) ∧
    clear_cache_for_user envD s now p t = (s, false) := by
  have hwf : cache_newsletter env s now p t v = (s, false) := by
    simp [cache_newsletter, hav, hfs]
  have hgD : get_cached_newsletter envD s now p t = none := by
    simp [get_cached_newsletter, hdown]
  have hwD : ∀ w : Str, cache_newsletter envD s now p t w = (s, false) := by
    intro w; simp [cache_newsletter, hdown]
  refine ⟨hwf, ?_, ?_, ?_, ?_, ?_, ?_⟩
  · simp [generate_newsletter_with_cache, hmiss, hv, hwf]
  · simp [generate_newsletter_with_cache, hgD, hv, hwD]
  · simp [generate_newsletter_with_cache, hgD]
  · cases gen with
    | raises msg => simp [generate_newsletter_with_cache, hgD]
    | returns w =>
        by_cases hw : w = []
        · subst hw; simp [generate_newsletter_with_cache, hgD]
        · simp [generate_newsletter_with_cache, hgD, hw]
  · simp [clear_cache_for_profession, hdown]
  · simp [clear_cache_for_user, hdown]

/-- Witness for C5 with a raising write (envWriteFail) and a
disconnected client (envDown), on the empty store. -/
theorem C5_store_failures_witness :
    cache_newsletter envWriteFail [] 0 (("doctor").data) sDay (("v").data)
      = ([], false) ∧
    generate_newsletter_with_cache envWriteFail (GenOutcome.returns (("v").data))
        [] 0 (("doctor").data) sDay =
      ({ newsletter := ("v").data, source := sFresh,
         profession := ("doctor").data, time_period := sDay }, [], 1) ∧
    generate_newsletter_with_cache envDown (GenOutcome.returns (("v").data))
        [] 0 (("doctor").data) sDay =
      ({ newsletter := ("v").data, source := sFresh,
         profession := ("doctor").data, time_period := sDay }, [], 1) ∧
    (generate_newsletter_with_cache envDown (GenOutcome.raises (("boom").data))
        [] 0 (("doctor").data) sDay).1.source = sError ∧
    ((generate_newsletter_with_cache envDown (GenOutcome.returns [])
        [] 0 (("doctor").data) sDay).1.source = sFresh ∨
     (generate_newsletter_with_cache envDown (GenOutcome.returns [])
        [] 0 (("doctor").data) sDay).1.source = sError) ∧
    clear_cache_for_profession envDown [] 0 (("doctor").data) = ([], 0) ∧
    clear_cache_for_user envDown [] 0 (("doctor").data) sDay = ([], false) :=
  C5_store_failures envWriteFail envDown (GenOutcome.returns []) [] 0
    (("doctor").data) sDay (("v").data) (("boom").data)
    rfl rfl (by decide) (by decide) rfl

/-- C8 (amended): the gateway does not normalize an unknown time period.
The cache key embeds the period verbatim, so for T outside
day/week/month the fetch reads and writes its own entry, under a key
distinct from the one for (P, "day"); only the TTL falls back to the
day default of 28800 s. -/
theorem C8_unknown_period (env : RedisEnv) (s : Store) (now : Nat) (p t v : Str)
    (hunk : t ∉ validPeriods) (hav : env.available = true)
    (hfs : env.failSet = false)
    (hmiss : get_cached_newsletter env s now p t = none) (hv : v ≠ []) :
    get_cache_key p t = nsPre ++ lowerStr p ++ sepU ++ t ∧
    get_cache_key p t ≠ get_cache_key p sDay ∧
    ttlFor t = 28800 ∧
    generate_newsletter_with_cache env (GenOutcome.returns v) s now p t =
      ({ newsletter := v, source := sFresh, profession := p, time_period := t },
       redisSetex s now (get_cache_key p t) 28800 v, 1) := by
  simp only [validPeriods, List.mem_cons, List.not_mem_nil, or_false, not_or] at hunk
  obtain ⟨h1, h2, h3⟩ := hunk
  have httl : ttlFor t = 28800 := by simp [ttlFor, TTL_MAP, h1, h2, h3]
  refine ⟨rfl, ?_, httl, ?_⟩
  · intro hk
    exact h1 (get_cache_key_inj_profession p p t sDay hk rfl)
  · rw [← httl]
    simp [generate_newsletter_with_cache, hmiss, hv, cache_newsletter, hav, hfs]

/-- Witness for C8 at the unknown period "year". -/
theorem C8_unknown_period_witness :
    get_cache_key (("doctor").data) (("year").data) =
      nsPre ++ lowerStr (("doctor").data) ++ sepU ++ ("year").data ∧
    get_cache_key (("doctor").data) (("year").data) ≠
      get_cache_key (("doctor").data) sDay ∧
    ttlFor (("year").data) = 28800 ∧
    generate_newsletter_with_cache envOk (GenOutcome.returns (("v").data))
        [] 0 (("doctor").data) (("year").data) =
      ({ newsletter := ("v").data, source := sFresh,
         profession := ("doctor").data, time_period := ("year").data },
       redisSetex [] 0 (get_cache_key (("doctor").data) (("year").data))
         28800 (("v").data), 1) :=
  C8_unknown_period envOk [] 0 (("doctor").data) (("year").data) (("v").data)
    (by decide) rfl rfl (by decide) (by decide)

/-- C8 as stated is false: with a live entry cached for (doctor, day),
a fetch for (doctor, year) does not read that entry — it misses and
regenerates (`source="fresh"`, generator invoked), because the key for
the unknown period "year" differs from the key for "day". -/
theorem C8_counterexample :
    (generate_newsletter_with_cache envOk (GenOutcome.returns (("B").data))
        (cache_newsletter envOk [] 0 (("doctor").data) sDay (("A").data)).1
        1 (("doctor").data) (("year").data)).1.source = sFresh ∧
    (generate_newsletter_with_cache envOk (GenOutcome.returns (("B").data))
        (cache_newsletter envOk [] 0 (("doctor").data) sDay (("A").data)).1
        1 (("doctor").data) (("year").data)).1.source ≠ sCache ∧
    (generate_newsletter_with_cache envOk (GenOutcome.returns (("B").data))
        (cache_newsletter envOk [] 0 (("doctor").data) sDay (("A").data)).1
        1 (("doctor").data) (("year").data)).2.2 = 1 ∧
    get_cache_key (("doctor").data) (("year").data) ≠
      get_cache_key (("doctor").data) sDay := by
  decide

/-- C9: no TTL refresh on a hit. After a successful write at `now`, any
number of fetches at instants before `now + TTL` leave the store exactly
as the write left it, and a read at any instant from `now + TTL` on is a
miss — the intermediate reads did not extend the expiration. -/
theorem C9_no_ttl_refresh (env : RedisEnv) (gen : GenOutcome) (s : Store)
    (now now' : Nat) (p t v : Str) (times : List Nat)
    (hav : env.available = true) (hfg : env.failGet = false)
    (hfs : env.failSet = false) (hv : v ≠ [])
    (htimes : ∀ τ ∈ times, τ < now + ttlFor t)
    (hexp : now + ttlFor t ≤ now') :
    repeatedFetch env gen p t times (cache_newsletter env s now p t v).1 =
      (cache_newsletter env s now p t v).1 ∧
    get_cached_newsletter env (cache_newsletter env s now p t v).1 now' p t
      = none := by
  have hw : (cache_newsletter env s now p t v).1 =
      redisSetex s now (get_cache_key p t) (ttlFor t) v := by
    simp [cache_newsletter, hav, hfs]
  constructor
  · rw [hw]
    induction times with
    | nil => rfl
    | cons τ rest ih =>
        have hhit := get_after_setex env s now τ p t v hav hfg hv
          (htimes τ (List.mem_cons_self τ rest))
        have hstep : (generate_newsletter_with_cache env gen
            (redisSetex s now (get_cache_key p t) (ttlFor t) v) τ p t).2.1 =
            redisSetex s now (get_cache_key p t) (ttlFor t) v := by
          simp [generate_newsletter_with_cache, hhit]
        rw [repeatedFetch, hstep]
        exact ih (fun τ' h' => htimes τ' (List.mem_cons_of_mem τ h'))
  · rw [hw]
    exact get_after_expiry env s now now' p t v hexp

/-- Witness for C9: write at 0 with the day TTL, reads at 1, 2, 3, then
a read at 28800 misses. -/
theorem C9_no_ttl_refresh_witness :
    repeatedFetch envOk (GenOutcome.returns (("z").data)) (("doctor").data) sDay
        [1, 2, 3]
        (cache_newsletter envOk [] 0 (("doctor").data) sDay (("v").data)).1 =
      (cache_newsletter envOk [] 0 (("doctor").data) sDay (("v").data)).1 ∧
    get_cached_newsletter envOk
        (cache_newsletter envOk [] 0 (("doctor").data) sDay (("v").data)).1
        28800 (("doctor").data) sDay = none :=
  C9_no_ttl_refresh envOk (GenOutcome.returns (("z").data)) [] 0 28800
    (("doctor").data) sDay (("v").data) [1, 2, 3]
    rfl rfl rfl (by decide) (by decide) (by decide)

/-- C10: empty values are never served from the cache. A live entry
whose stored value is the empty string reads as a miss (the Python
truthiness test rejects it), and whenever the fetch reports
`source="cache"` the returned newsletter is non-empty. -/
theorem C10_empty_never_served (env : RedisEnv) (gen : GenOutcome)
    (s s' : Store) (now : Nat) (p t : Str)
    (hempty : redisGet s now (get_cache_key p t) = some []) :
    get_cached_newsletter env s now p t = none ∧
    ((generate_newsletter_with_cache env gen s' now p t).1.source = sCache →
      (generate_newsletter_with_cache env gen s' now p t).1.newsletter ≠ []) := by
  constructor
  · simp [get_cached_newsletter, hempty]
  · intro hsrc
    unfold generate_newsletter_with_cache at hsrc ⊢
    cases hg : get_cached_newsletter env s' now p t with
    | some w =>
        exact get_cached_ne_nil env s' now p t w hg
    | none =>
        rw [hg] at hsrc
        cases gen with
        | raises msg => exact absurd hsrc (by simp [sError, sCache])
        | returns w =>
            by_cases hw : w = []
            · subst hw
              exact absurd hsrc (by simp [sError, sCache])
            · exact absurd hsrc (by simp [hw, sFresh, sCache])

/-- Witness for C10: a live empty-valued entry for (doctor, day) reads
as a miss, and a fetch that hits (store holding "A") returns a
non-empty newsletter. -/
theorem C10_empty_never_served_witness :
    get_cached_newsletter envOk
      (redisSetex [] 0 (get_cache_key (("doctor").data) sDay) 28800 [])
      1 (("doctor").data) sDay = none ∧
    (generate_newsletter_with_cache envOk (GenOutcome.returns (("z").data))
      (redisSetex [] 0 (get_cache_key (("doctor").data) sDay) 28800 (("A").data))
      1 (("doctor").data) sDay).1.newsletter ≠ [] :=
  ⟨(C10_empty_never_served envOk (GenOutcome.returns (("z").data))
      (redisSetex [] 0 (get_cache_key (("doctor").data) sDay) 28800 [])
      (redisSetex [] 0 (get_cache_key (("doctor").data) sDay) 28800 (("A").data))
      1 (("doctor").data) sDay (by decide)).1,
   (C10_empty_never_served envOk (GenOutcome.returns (("z").data))
      (redisSetex [] 0 (get_cache_key (("doctor").data) sDay) 28800 [])
      (redisSetex [] 0 (get_cache_key (("doctor").data) sDay) 28800 (("A").data))
      1 (("doctor").data) sDay (by decide)).2 (by decide)⟩

end TavilyCache
